import Mathlib

/-!
Shallow embedding of the Washtag laundry-POS backend (src/backend/app).

The Entity Store (SQLAlchemy session + tables) is modelled as a `DB` record of
lists; SQL `first()` becomes `List.find?` over the list in natural (insertion)
order, SQL `AND`/`OR` filters become boolean predicates, and SQL
`ILIKE '%pat%'` becomes case-insensitive substring containment.  Floats
(weights, amounts) are modelled as rationals: the code only compares and
averages them.  A SQL comparison against a NULL column yields no match, so
`Price.weight_min <= w` with `weight_min` NULL filters the row out; this is
modelled by `weightMinLe` returning `false` on `none`.  Server-assigned
timestamps (`created_at`, `updated_at`) are outside the embedding.
-/

namespace Washtag

/-- Lowercase a string character-by-character (Python `str.lower`, ASCII). -/
def lowerStr (s : String) : String := ⟨s.data.map Char.toLower⟩

/-- Check that `pat` occurs at the head of `l`. -/
def firstMatches : List Char → List Char → Bool
  | [], _ => true
  | _ :: _, [] => false
  | a :: as, b :: bs => a == b && firstMatches as bs

/-- Check that `pat` occurs as a contiguous sublist of the second list. -/
def hasSub (pat : List Char) : List Char → Bool
  | [] => pat.isEmpty
  | c :: t => firstMatches pat (c :: t) || hasSub pat t

/-- SQL `s ILIKE '%pat%'`: case-insensitive substring containment. -/
def ilike (s pat : String) : Bool :=
  hasSub (lowerStr pat).data (lowerStr s).data

/-! Data model (src/backend/app/models). -/

/-- Category row (models/category.py). -/
structure Category where
  id : Nat
  name : String
deriving DecidableEq, Repr

/-- Client row (models/client.py). -/
structure Client where
  id : Nat
  name : String
  contact_number : String
  address : String
deriving DecidableEq, Repr

/-- Price row (models/price.py); `weight_min` is nullable (NULL for custom rules). -/
structure Price where
  id : Nat
  type : String
  weight_min : Option ℚ
  weight_max : ℚ
  amount : ℚ
  category_id : Nat
deriving DecidableEq, Repr

/-- Order row (models/order.py); `status` is a free string column at storage level. -/
structure Order where
  id : Nat
  client_id : Nat
  category_id : Nat
  status : String
  total_amount : Option ℚ
  notes : Option String
deriving DecidableEq, Repr

/-- Storage-level default of `Order.status` (models/order.py line 13: `default="unpaid"`). -/
def modelDefaultStatus : String := "unpaid"

/-- The whole entity store: one list per table, in insertion order, plus the
autoincrement counters for the ids the store assigns. -/
structure DB where
  categories : List Category
  clients : List Client
  prices : List Price
  orders : List Order
  nextClientId : Nat
  nextPriceId : Nat
  nextOrderId : Nat
deriving DecidableEq, Repr

/-! Request schemas (src/backend/app/schemas). -/

/-- Order status enum (schemas/order.py `OrderStatus`). -/
inductive OrderStatus where
  | pending
  | in_progress
  | completed
  | cancelled
deriving DecidableEq, Repr

/-- String value of each `OrderStatus` member. -/
def OrderStatus.str : OrderStatus → String
  | .pending => "pending"
  | .in_progress => "in_progress"
  | .completed => "completed"
  | .cancelled => "cancelled"

/-- Schema `OrderCreate` (schemas/order.py); `status` defaults to `pending`. -/
structure OrderCreate where
  client_id : Nat
  category_id : Nat
  status : OrderStatus := .pending
  total_amount : Option ℚ := none
  notes : Option String := none
deriving Repr

/-- Schema `IntegratedOrderCreate` (schemas/order.py); `status` defaults to `pending`. -/
structure IntegratedOrderCreate where
  client_name : String
  client_contact : String
  client_address : String
  category_id : Nat
  type_name : String
  weight : ℚ
  custom_amount : Option ℚ := none
  notes : Option String := none
  status : OrderStatus := .pending
deriving Repr

/-- Schema `PriceCreate` (schemas/price.py). -/
structure PriceCreate where
  type : String
  weight_min : Option ℚ
  weight_max : ℚ
  amount : ℚ
  category_id : Nat
deriving DecidableEq, Repr

/-- Field-level validity of a `PriceCreate` per the pydantic validators of
`PriceBase` (schemas/price.py): positive weights and amount, `weight_min`
required below `weight_max` for non-custom types. -/
def validPriceCreate (pc : PriceCreate) : Bool :=
  decide (0 < pc.weight_max) && decide (0 < pc.amount) &&
    (match pc.weight_min with
     | some m => decide (0 < m) && decide (m < pc.weight_max)
     | none => lowerStr pc.type == "custom")

/-- Pydantic validator function `IntegratedOrderCreate.validate_custom_amount`
(schemas/order.py lines 86-93), as a pure function of the already-parsed
`type_name` and the supplied `custom_amount` value `v`.  Note that pydantic
only invokes this function when the `custom_amount` field is actually
supplied in the request body: a `validator` without `always=True` is skipped
for unsupplied fields, which instead silently take their default (`None`).
The boundary behaviour including that dispatch is `parse_custom_amount`
below. -/
def validate_custom_amount (type_name : String) (v : Option ℚ) :
    Except String (Option ℚ) :=
  if lowerStr type_name == "custom" && v.isNone then
    Except.error "custom_amount is required when type_name is \"custom\""
  else if !(lowerStr type_name == "custom") && v.isSome then
    Except.error "custom_amount should only be provided when type_name is \"custom\""
  else
    Except.ok v

/-- Schema-boundary treatment of the `custom_amount` field, per pydantic's
validator dispatch: `raw = none` models a body that omits the field — the
field takes its default `None` and `validate_custom_amount` is skipped
(`@validator` without `always=True` does not run for unsupplied fields);
`raw = some v` models a body that supplies the field (as `null` when
`v = none`), on which the validator runs. -/
def parse_custom_amount (type_name : String) (raw : Option (Option ℚ)) :
    Except String (Option ℚ) :=
  match raw with
  | none => Except.ok none
  | some v => validate_custom_amount type_name v

/-- Response schema `IntegratedOrderResponse` (schemas/order.py), minus the
server-assigned `created_at` timestamp. -/
structure IntegratedOrderResponse where
  order_id : Nat
  status : String
  total_amount : ℚ
  notes : Option String
  client_id : Nat
  client_name : String
  client_contact : String
  client_address : String
  category_id : Nat
  category_name : String
  type_name : String
  weight : ℚ
  price_id : Option Nat
deriving DecidableEq, Repr

/-! CRUD layer (src/backend/app/crud). -/

/-- crud/category.py `get_category`. -/
def get_category (db : DB) (category_id : Nat) : Option Category :=
  db.categories.find? (fun c => c.id == category_id)

/-- SQL filter `Price.weight_min <= weight` (NULL compares to nothing). -/
def weightMinLe (p : Price) (weight : ℚ) : Bool :=
  match p.weight_min with
  | some m => decide (m ≤ weight)
  | none => false

/-- Row filter of crud/price.py `get_price_by_type_and_weight`: same category,
exact type equality, `weight_max >= weight`, and (`type ILIKE '%custom%'` or
`weight_min <= weight`). -/
def typeWeightPred (category_id : Nat) (type_name : String) (weight : ℚ)
    (p : Price) : Bool :=
  p.category_id == category_id && p.type == type_name &&
    decide (weight ≤ p.weight_max) &&
    (ilike p.type "custom" || weightMinLe p weight)

/-- crud/price.py `get_price_by_type_and_weight` (lines 106-129). -/
def get_price_by_type_and_weight (db : DB) (category_id : Nat)
    (type_name : String) (weight : ℚ) : Option Price :=
  db.prices.find? (typeWeightPred category_id type_name weight)

/-- Row filter of crud/price.py `get_price_by_weight_range`: same category,
`weight_max >= weight`, (`type ILIKE '%custom%'` or `weight_min <= weight`),
and when a `type_filter` is given, `type ILIKE '%type_filter%'`. -/
def weightRangePred (category_id : Nat) (weight : ℚ)
    (type_filter : Option String) (p : Price) : Bool :=
  p.category_id == category_id && decide (weight ≤ p.weight_max) &&
    (ilike p.type "custom" || weightMinLe p weight) &&
    (match type_filter with
     | some tf => ilike p.type tf
     | none => true)

/-- crud/price.py `get_price_by_weight_range` (lines 52-77). -/
def get_price_by_weight_range (db : DB) (category_id : Nat) (weight : ℚ)
    (type_filter : Option String) : Option Price :=
  db.prices.find? (weightRangePred category_id weight type_filter)

/-- crud/client.py `create_client`: insert a new row with the next id. -/
def create_client (db : DB) (name contact_number address : String) :
    Client × DB :=
  let c : Client := ⟨db.nextClientId, name, contact_number, address⟩
  (c, { db with clients := db.clients ++ [c],
                nextClientId := db.nextClientId + 1 })

/-- crud/order.py `find_or_create_client` (lines 93-107). -/
def find_or_create_client (db : DB)
    (client_name client_contact client_address : String) : Client × DB :=
  match db.clients.find? (fun c => c.contact_number == client_contact) with
  | some c => (c, db)
  | none => create_client db client_name client_contact client_address

/-- Error message of crud/order.py line 140. -/
def noPriceMsg (type_name : String) (weight : ℚ) (category_id : Nat) : String :=
  "No price found for type '" ++ type_name ++ "' with weight " ++
    toString weight ++ "kg in category " ++ toString category_id

/-- crud/order.py `get_price_for_order` (lines 110-142).  A raised
`ValueError` is modelled as `Except.error` carrying the message. -/
def get_price_for_order (db : DB) (category_id : Nat) (type_name : String)
    (weight : ℚ) (custom_amount : Option ℚ) :
    Except String (Option Price × ℚ) :=
  if lowerStr type_name == "custom" then
    match custom_amount with
    | none => Except.error "custom_amount is required for custom type"
    | some a => Except.ok (none, a)
  else
    match get_price_by_type_and_weight db category_id type_name weight with
    | some p => Except.ok (some p, p.amount)
    | none =>
      match get_price_by_weight_range db category_id weight (some type_name) with
      | some p => Except.ok (some p, p.amount)
      | none => Except.error (noPriceMsg type_name weight category_id)

/-- crud/order.py `create_order` (lines 55-67): insert with the next id. -/
def create_order (db : DB) (oc : OrderCreate) : Order × DB :=
  let o : Order := ⟨db.nextOrderId, oc.client_id, oc.category_id,
    oc.status.str, oc.total_amount, oc.notes⟩
  (o, { db with orders := db.orders ++ [o],
                nextOrderId := db.nextOrderId + 1 })

/-- crud/order.py `create_integrated_order` (lines 145-197), as a state
transformer: the returned `DB` is the store after the call, including after a
failed call (no rollback exists in the code). -/
def create_integrated_order (db : DB) (od : IntegratedOrderCreate) :
    Except String IntegratedOrderResponse × DB :=
  match get_category db od.category_id with
  | none =>
    (Except.error ("Category with ID " ++ toString od.category_id ++ " not found"), db)
  | some category =>
    let pr := find_or_create_client db od.client_name od.client_contact od.client_address
    match get_price_for_order pr.2 od.category_id od.type_name od.weight
        od.custom_amount with
    | Except.error e => (Except.error e, pr.2)
    | Except.ok res =>
      let pr2 := create_order pr.2
        { client_id := pr.1.id, category_id := od.category_id,
          status := od.status, total_amount := some res.2, notes := od.notes }
      (Except.ok
        { order_id := pr2.1.id, status := pr2.1.status, total_amount := res.2,
          notes := pr2.1.notes, client_id := pr.1.id, client_name := pr.1.name,
          client_contact := pr.1.contact_number,
          client_address := pr.1.address, category_id := category.id,
          category_name := category.name, type_name := od.type_name,
          weight := od.weight, price_id := res.1.map Price.id }, pr2.2)

/-! Router layer for prices (src/backend/app/routers/price.py). -/

/-- HTTPException as raised by the routers: status code plus detail string. -/
structure HttpError where
  status_code : Nat
  detail : String
deriving DecidableEq, Repr

/-- crud/price.py `create_price` (lines 8-20): insert with the next id. -/
def crud_create_price (db : DB) (pc : PriceCreate) : Price × DB :=
  let p : Price := ⟨db.nextPriceId, pc.type, pc.weight_min, pc.weight_max,
    pc.amount, pc.category_id⟩
  (p, { db with prices := db.prices ++ [p],
                nextPriceId := db.nextPriceId + 1 })

/-- routers/price.py `create_price` (lines 14-48): category existence check,
then the duplicate-custom check for custom-typed requests, or the
midpoint-based overlap check `get_price_by_type_and_weight(db, category_id,
type, (weight_min + weight_max) / 2)` for non-custom ones, then insertion.
A non-custom request with `weight_min` absent would raise a `TypeError` on
the midpoint expression, which FastAPI surfaces as a 500 (the schema
validator makes that branch unreachable for valid requests). -/
def routerCreatePrice (db : DB) (pc : PriceCreate) :
    Except HttpError Price × DB :=
  match get_category db pc.category_id with
  | none => (Except.error ⟨404, "Category not found"⟩, db)
  | some _ =>
    if lowerStr pc.type == "custom" then
      match db.prices.find?
          (fun p => p.category_id == pc.category_id && ilike p.type "custom") with
      | some _ =>
        (Except.error ⟨400, "Custom price already exists for this category"⟩, db)
      | none =>
        let pr := crud_create_price db pc
        (Except.ok pr.1, pr.2)
    else
      match pc.weight_min with
      | none => (Except.error ⟨500, "Internal server error"⟩, db)
      | some wmin =>
        match get_price_by_type_and_weight db pc.category_id pc.type
            ((wmin + pc.weight_max) / 2) with
        | some _ =>
          (Except.error ⟨400, "Price already exists for type '" ++ pc.type ++
            "' in this weight range for the selected category"⟩, db)
        | none =>
          let pr := crud_create_price db pc
          (Except.ok pr.1, pr.2)

/-- Two closed rational intervals `[a1, b1]` and `[a2, b2]` intersect. -/
def rangesOverlap (a1 b1 a2 b2 : ℚ) : Bool :=
  decide (a1 ≤ b2) && decide (a2 ≤ b1)

/-- Number of price rows of a category whose type is case-insensitively equal
to "custom". -/
def customCount (db : DB) (cat : Nat) : Nat :=
  (db.prices.filter
    (fun p => p.category_id == cat && lowerStr p.type == "custom")).length

/-- Row condition of the resolver's first search as the spec phrases it:
prices in the category with type exactly equal to `type_name`,
`weight_max >= weight`, and (type matching "custom" case-insensitively or
`weight_min <= weight`). -/
def firstSearchCond (category_id : Nat) (type_name : String) (weight : ℚ)
    (p : Price) : Bool :=
  p.category_id == category_id && p.type == type_name &&
    decide (p.weight_max ≥ weight) &&
    (ilike p.type "custom" || weightMinLe p weight)

/-- Row condition of the resolver's fallback search as the spec phrases it:
exact-type equality dropped in favour of a case-insensitive substring match
on `type_name`, with the same weight predicates, so rows whose type contains
"custom" match regardless of `weight_min`. -/
def secondSearchCond (category_id : Nat) (type_name : String) (weight : ℚ)
    (p : Price) : Bool :=
  p.category_id == category_id && decide (p.weight_max ≥ weight) &&
    (ilike p.type "custom" || weightMinLe p weight) &&
    ilike p.type type_name

/-! Helper instances and lemmas. -/

instance {ε α : Type} [DecidableEq ε] [DecidableEq α] :
    DecidableEq (Except ε α) := fun a b =>
  match a, b with
  | Except.error x, Except.error y =>
    if h : x = y then Decidable.isTrue (by rw [h])
    else Decidable.isFalse (fun hh => h (by cases hh; rfl))
  | Except.error _, Except.ok _ => Decidable.isFalse (fun hh => Except.noConfusion hh)
  | Except.ok _, Except.error _ => Decidable.isFalse (fun hh => Except.noConfusion hh)
  | Except.ok x, Except.ok y =>
    if h : x = y then Decidable.isTrue (by rw [h])
    else Decidable.isFalse (fun hh => h (by cases hh; rfl))

theorem firstMatches_refl : ∀ l : List Char, firstMatches l l = true
  | [] => rfl
  | a :: as => by simp [firstMatches, firstMatches_refl as]

theorem hasSub_refl : ∀ l : List Char, hasSub l l = true
  | [] => rfl
  | c :: t => by simp [hasSub, firstMatches_refl]

theorem ilike_custom_of_lower {s : String} (h : lowerStr s = "custom") :
    ilike s "custom" = true := by
  unfold ilike
  rw [h]
  exact hasSub_refl _

theorem find?_ext {α : Type} (p q : α → Bool) (h : ∀ a, p a = q a)
    (l : List α) : l.find? p = l.find? q := by
  have hpq : p = q := funext h
  rw [hpq]

theorem find_or_create_client_orders (db : DB) (n c a : String) :
    ((find_or_create_client db n c a).2).orders = db.orders := by
  unfold find_or_create_client create_client
  split <;> rfl

theorem find_or_create_client_prices (db : DB) (n c a : String) :
    ((find_or_create_client db n c a).2).prices = db.prices := by
  unfold find_or_create_client create_client
  split <;> rfl

/-! Claims. -/

/-- C1: an integrated-order request whose `category_id` is not in the store
fails with the NotFound message "Category with ID <id> not found" and leaves
the store — in particular the set of Client records — unchanged: the failed
call creates no client even when the contact number matches no existing
client. -/
theorem create_integrated_order_missing_category (db : DB)
    (od : IntegratedOrderCreate) (h : get_category db od.category_id = none) :
    create_integrated_order db od =
      (Except.error ("Category with ID " ++ toString od.category_id ++ " not found"), db) ∧
    ((create_integrated_order db od).2).clients = db.clients := by
  unfold create_integrated_order
  rw [h]
  exact ⟨rfl, rfl⟩

theorem create_integrated_order_missing_category_witness :
    get_category ⟨[], [], [], [], 1, 1, 1⟩ 5 = none ∧
    (create_integrated_order ⟨[], [], [], [], 1, 1, 1⟩
        ⟨"Jane", "09171234567", "123 St", 5, "Regular", 3, none, none,
          OrderStatus.pending⟩ =
      (Except.error ("Category with ID " ++ toString (5 : Nat) ++ " not found"),
        ⟨[], [], [], [], 1, 1, 1⟩) ∧
     ((create_integrated_order ⟨[], [], [], [], 1, 1, 1⟩
        ⟨"Jane", "09171234567", "123 St", 5, "Regular", 3, none, none,
          OrderStatus.pending⟩).2).clients = []) :=
  ⟨rfl, create_integrated_order_missing_category _ _ rfl⟩

/-- C4: when `type_name` case-insensitively equals "custom", the resolver
fails with the InvalidInput message "custom_amount is required for custom
type" if `custom_amount` is absent, and returns no price record together with
`custom_amount` itself when it is present — for every store and weight, so
the price table is never consulted. -/
theorem get_price_for_order_custom (db : DB) (category_id : Nat)
    (tn : String) (w : ℚ) (h : lowerStr tn = "custom") :
    get_price_for_order db category_id tn w none =
      Except.error "custom_amount is required for custom type" ∧
    ∀ a : ℚ, get_price_for_order db category_id tn w (some a) =
      Except.ok (none, a) := by
  unfold get_price_for_order
  rw [h]
  simp

theorem get_price_for_order_custom_witness :
    lowerStr "Custom" = "custom" ∧
    get_price_for_order ⟨[], [], [], [], 1, 1, 1⟩ 1 "Custom" 3 none =
      Except.error "custom_amount is required for custom type" ∧
    get_price_for_order ⟨[], [], [], [], 1, 1, 1⟩ 1 "Custom" 3 (some 50) =
      Except.ok (none, 50) :=
  ⟨by decide,
   (get_price_for_order_custom ⟨[], [], [], [], 1, 1, 1⟩ 1 "Custom" 3 (by decide)).1,
   (get_price_for_order_custom ⟨[], [], [], [], 1, 1, 1⟩ 1 "Custom" 3 (by decide)).2 50⟩

/-- C5: `find_or_create_client` is idempotent with no update-on-match.  When
a client with the requested contact number exists, that client is returned
and the store is untouched (the request's name and address are ignored); when
none exists, exactly one client is inserted.  Consequently a second
sequential call with the same contact number returns the very same client and
changes nothing, so at most one row is ever created in total. -/
theorem find_or_create_client_idempotent :
    (∀ (db : DB) (n c a : String) (cl : Client),
        db.clients.find? (fun x => x.contact_number == c) = some cl →
        find_or_create_client db n c a = (cl, db)) ∧
    (∀ (db : DB) (n c a : String),
        db.clients.find? (fun x => x.contact_number == c) = none →
        find_or_create_client db n c a =
          (⟨db.nextClientId, n, c, a⟩,
            { db with clients := db.clients ++ [⟨db.nextClientId, n, c, a⟩],
                      nextClientId := db.nextClientId + 1 })) ∧
    (∀ (db : DB) (n c a n2 a2 : String),
        find_or_create_client (find_or_create_client db n c a).2 n2 c a2 =
          ((find_or_create_client db n c a).1, (find_or_create_client db n c a).2) ∧
        ((find_or_create_client db n c a).2).clients.length ≤ db.clients.length + 1) := by
  refine ⟨?_, ?_, ?_⟩
  · intro db n c a cl h
    unfold find_or_create_client
    rw [h]
  · intro db n c a h
    unfold find_or_create_client
    rw [h]
    rfl
  · intro db n c a n2 a2
    cases hf : db.clients.find? (fun x => x.contact_number == c) with
    | some cl =>
      simp only [find_or_create_client, hf]
      exact ⟨trivial, Nat.le_succ _⟩
    | none =>
      simp only [find_or_create_client, create_client, hf]
      constructor
      · rw [List.find?_append, hf]
        simp [List.find?]
      · simp

theorem find_or_create_client_idempotent_witness :
    ([(⟨7, "Old", "09171234567", "addr"⟩ : Client)].find?
        (fun x => x.contact_number == "09171234567") =
      some ⟨7, "Old", "09171234567", "addr"⟩ ∧
     find_or_create_client ⟨[], [⟨7, "Old", "09171234567", "addr"⟩], [], [], 9, 1, 1⟩
        "New" "09171234567" "elsewhere" =
      (⟨7, "Old", "09171234567", "addr"⟩,
        ⟨[], [⟨7, "Old", "09171234567", "addr"⟩], [], [], 9, 1, 1⟩)) ∧
    (([] : List Client).find? (fun x => x.contact_number == "09998887777") = none ∧
     find_or_create_client ⟨[], [], [], [], 3, 1, 1⟩ "Jane" "09998887777" "123 St" =
      (⟨3, "Jane", "09998887777", "123 St"⟩,
        ⟨[], [⟨3, "Jane", "09998887777", "123 St"⟩], [], [], 4, 1, 1⟩)) ∧
    (find_or_create_client
        (find_or_create_client ⟨[], [], [], [], 3, 1, 1⟩ "Jane" "09998887777" "123 St").2
        "Janet" "09998887777" "456 St" =
      ((find_or_create_client ⟨[], [], [], [], 3, 1, 1⟩ "Jane" "09998887777" "123 St").1,
       (find_or_create_client ⟨[], [], [], [], 3, 1, 1⟩ "Jane" "09998887777" "123 St").2) ∧
     ((find_or_create_client ⟨[], [], [], [], 3, 1, 1⟩ "Jane" "09998887777" "123 St").2).clients.length ≤
       ([] : List Client).length + 1) :=
  ⟨⟨by decide,
    find_or_create_client_idempotent.1
      ⟨[], [⟨7, "Old", "09171234567", "addr"⟩], [], [], 9, 1, 1⟩
      "New" "09171234567" "elsewhere" ⟨7, "Old", "09171234567", "addr"⟩ (by decide)⟩,
   ⟨by decide,
    find_or_create_client_idempotent.2.1 ⟨[], [], [], [], 3, 1, 1⟩
      "Jane" "09998887777" "123 St" (by decide)⟩,
   find_or_create_client_idempotent.2.2 ⟨[], [], [], [], 3, 1, 1⟩
      "Jane" "09998887777" "123 St" "Janet" "456 St"⟩

/-- C3: for every non-custom `type_name` the resolver first searches with
exact type equality plus the weight predicates, then falls back to a search
that replaces exact equality by a case-insensitive substring match on
`type_name` keeping the same weight predicates, and otherwise fails with the
message "No price found for type '<type>' with weight <weight>kg in category
<id>"; a found record is returned together with its amount. -/
theorem get_price_for_order_cascade (db : DB) (cat : Nat) (tn : String)
    (w : ℚ) (ca : Option ℚ) (h : lowerStr tn ≠ "custom") :
    get_price_for_order db cat tn w ca =
      match db.prices.find? (firstSearchCond cat tn w) with
      | some p => Except.ok (some p, p.amount)
      | none =>
        match db.prices.find? (secondSearchCond cat tn w) with
        | some p => Except.ok (some p, p.amount)
        | none => Except.error (noPriceMsg tn w cat) := by
  have hb : (lowerStr tn == "custom") = false := by
    simp only [beq_eq_false_iff_ne, ne_eq]
    exact h
  have h1 : db.prices.find? (typeWeightPred cat tn w) =
      db.prices.find? (firstSearchCond cat tn w) :=
    find?_ext _ _ (fun p => by simp [typeWeightPred, firstSearchCond, ge_iff_le]) _
  have h2 : db.prices.find? (weightRangePred cat w (some tn)) =
      db.prices.find? (secondSearchCond cat tn w) :=
    find?_ext _ _ (fun p => by simp [weightRangePred, secondSearchCond, ge_iff_le]) _
  unfold get_price_for_order get_price_by_type_and_weight get_price_by_weight_range
  rw [hb, h1, h2]
  simp

theorem get_price_for_order_cascade_witness :
    lowerStr "Regular" ≠ "custom" ∧
    get_price_for_order ⟨[], [], [], [], 1, 1, 1⟩ 1 "Regular" 3 none =
      match ([] : List Price).find? (firstSearchCond 1 "Regular" 3) with
      | some p => Except.ok (some p, p.amount)
      | none =>
        match ([] : List Price).find? (secondSearchCond 1 "Regular" 3) with
        | some p => Except.ok (some p, p.amount)
        | none => Except.error (noPriceMsg "Regular" 3 1) :=
  ⟨by decide,
   get_price_for_order_cascade ⟨[], [], [], [], 1, 1, 1⟩ 1 "Regular" 3 none (by decide)⟩

/-- C8: weight-range matching is inclusive at both ends.  For a store holding
a single non-custom price with `weight_min = 5` and `weight_max = 10`, the
resolver matches weight exactly 5 and exactly 10 but fails with NotFound at
4.999 and at 10.001. -/
theorem weight_range_boundary (tn : String) (amt : ℚ) (cat pid : Nat)
    (h1 : lowerStr tn ≠ "custom") (h2 : ilike tn "custom" = false) :
    get_price_for_order ⟨[], [], [⟨pid, tn, some 5, 10, amt, cat⟩], [], 1, 1, 1⟩
        cat tn 5 none =
      Except.ok (some ⟨pid, tn, some 5, 10, amt, cat⟩, amt) ∧
    get_price_for_order ⟨[], [], [⟨pid, tn, some 5, 10, amt, cat⟩], [], 1, 1, 1⟩
        cat tn 10 none =
      Except.ok (some ⟨pid, tn, some 5, 10, amt, cat⟩, amt) ∧
    get_price_for_order ⟨[], [], [⟨pid, tn, some 5, 10, amt, cat⟩], [], 1, 1, 1⟩
        cat tn (4999/1000) none =
      Except.error (noPriceMsg tn (4999/1000) cat) ∧
    get_price_for_order ⟨[], [], [⟨pid, tn, some 5, 10, amt, cat⟩], [], 1, 1, 1⟩
        cat tn (10001/1000) none =
      Except.error (noPriceMsg tn (10001/1000) cat) := by
  have hb : (lowerStr tn == "custom") = false := by
    simp only [beq_eq_false_iff_ne, ne_eq]
    exact h1
  refine ⟨?_, ?_, ?_, ?_⟩ <;>
    simp [get_price_for_order, get_price_by_type_and_weight,
      get_price_by_weight_range, typeWeightPred, weightRangePred, weightMinLe,
      List.find?, hb, h2] <;>
    norm_num

theorem weight_range_boundary_witness :
    lowerStr "Regular" ≠ "custom" ∧
    ilike "Regular" "custom" = false ∧
    get_price_for_order ⟨[], [], [⟨1, "Regular", some 5, 10, 100, 1⟩], [], 1, 1, 1⟩
        1 "Regular" 5 none =
      Except.ok (some ⟨1, "Regular", some 5, 10, 100, 1⟩, 100) ∧
    get_price_for_order ⟨[], [], [⟨1, "Regular", some 5, 10, 100, 1⟩], [], 1, 1, 1⟩
        1 "Regular" (4999/1000) none =
      Except.error (noPriceMsg "Regular" (4999/1000) 1) :=
  ⟨by decide, by decide,
   (weight_range_boundary "Regular" 100 1 1 (by decide) (by decide)).1,
   (weight_range_boundary "Regular" 100 1 1 (by decide) (by decide)).2.2.1⟩

/-- C9 counterexample: a POST /orders/integrated body whose `type_name` is
"custom" and which omits `custom_amount` is not rejected at the schema
boundary — the skipped validator lets it parse with `custom_amount = none` —
and the workflow then interacts with the store before failing: starting from
a store with category 1 and no clients, the call inserts the new client and
only afterwards fails with the crud-level invalid-input message.  This
refutes the claim that `custom_amount` presence iff custom type is enforced
at the boundary. -/
theorem custom_amount_boundary_counterexample :
    parse_custom_amount "custom" none = Except.ok none ∧
    (create_integrated_order ⟨[⟨1, "Wash"⟩], [], [], [], 1, 1, 1⟩
        ⟨"Jane", "09171234567", "123 St", 1, "custom", 3, none, none,
          OrderStatus.pending⟩).1 =
      Except.error "custom_amount is required for custom type" ∧
    ((create_integrated_order ⟨[⟨1, "Wash"⟩], [], [], [], 1, 1, 1⟩
        ⟨"Jane", "09171234567", "123 St", 1, "custom", 3, none, none,
          OrderStatus.pending⟩).2).clients =
      [⟨1, "Jane", "09171234567", "123 St"⟩] := by
  refine ⟨rfl, ?_, ?_⟩ <;> decide

/-- C9 amended: at the POST /orders/integrated boundary, a request that
SUPPLIES `custom_amount` is validated there: a non-custom `type_name` with a
supplied amount, or a custom `type_name` with a supplied null amount, is
rejected as invalid input before any store interaction.  A custom-type
request that OMITS `custom_amount`, however, passes the boundary (pydantic
skips the validator for unsupplied fields) and is rejected with the
invalid-input message only inside the workflow, after the category check and
client reconciliation have run against the store. -/
theorem custom_amount_boundary :
    (∀ (tn : String) (x : ℚ), lowerStr tn ≠ "custom" →
        parse_custom_amount tn (some (some x)) =
          Except.error "custom_amount should only be provided when type_name is \"custom\"") ∧
    (∀ tn : String, lowerStr tn = "custom" →
        parse_custom_amount tn (some none) =
          Except.error "custom_amount is required when type_name is \"custom\"") ∧
    (∀ tn : String, parse_custom_amount tn none = Except.ok none) ∧
    (∀ (db : DB) (od : IntegratedOrderCreate),
        lowerStr od.type_name = "custom" → od.custom_amount = none →
        (get_category db od.category_id).isSome →
        (create_integrated_order db od).1 =
          Except.error "custom_amount is required for custom type" ∧
        (create_integrated_order db od).2 =
          (find_or_create_client db od.client_name od.client_contact
            od.client_address).2) := by
  refine ⟨?_, ?_, fun tn => rfl, ?_⟩
  · intro tn x h
    have hb : (lowerStr tn == "custom") = false := by
      simp only [beq_eq_false_iff_ne, ne_eq]
      exact h
    unfold parse_custom_amount validate_custom_amount
    simp [hb]
  · intro tn h
    unfold parse_custom_amount validate_custom_amount
    simp [h]
  · intro db od h1 h2 hc
    obtain ⟨cat, hcat⟩ := Option.isSome_iff_exists.mp hc
    have hb : (lowerStr od.type_name == "custom") = true := by simp [h1]
    have hres : get_price_for_order
        (find_or_create_client db od.client_name od.client_contact
          od.client_address).2 od.category_id od.type_name od.weight
        od.custom_amount =
        Except.error "custom_amount is required for custom type" := by
      unfold get_price_for_order
      rw [h2]
      simp [hb]
    unfold create_integrated_order
    rw [hcat]
    simp only [hres]
    exact ⟨trivial, trivial⟩

theorem custom_amount_boundary_witness :
    lowerStr "Regular" ≠ "custom" ∧
    parse_custom_amount "Regular" (some (some 50)) =
      Except.error "custom_amount should only be provided when type_name is \"custom\"" ∧
    lowerStr "Custom" = "custom" ∧
    parse_custom_amount "Custom" (some none) =
      Except.error "custom_amount is required when type_name is \"custom\"" ∧
    parse_custom_amount "Regular" none = Except.ok none ∧
    lowerStr "custom" = "custom" ∧
    (⟨"Janet", "09998887777", "456 St", 1, "custom", 3, none, none,
        OrderStatus.pending⟩ : IntegratedOrderCreate).custom_amount = none ∧
    (get_category ⟨[⟨1, "Wash"⟩], [], [], [], 1, 1, 1⟩ 1).isSome = true ∧
    (create_integrated_order ⟨[⟨1, "Wash"⟩], [], [], [], 1, 1, 1⟩
        ⟨"Janet", "09998887777", "456 St", 1, "custom", 3, none, none,
          OrderStatus.pending⟩).1 =
      Except.error "custom_amount is required for custom type" ∧
    (create_integrated_order ⟨[⟨1, "Wash"⟩], [], [], [], 1, 1, 1⟩
        ⟨"Janet", "09998887777", "456 St", 1, "custom", 3, none, none,
          OrderStatus.pending⟩).2 =
      (find_or_create_client ⟨[⟨1, "Wash"⟩], [], [], [], 1, 1, 1⟩
        "Janet" "09998887777" "456 St").2 :=
  ⟨by decide,
   custom_amount_boundary.1 "Regular" 50 (by decide),
   by decide,
   custom_amount_boundary.2.1 "Custom" (by decide),
   custom_amount_boundary.2.2.1 "Regular",
   by decide, rfl, by decide,
   (custom_amount_boundary.2.2.2 ⟨[⟨1, "Wash"⟩], [], [], [], 1, 1, 1⟩
      ⟨"Janet", "09998887777", "456 St", 1, "custom", 3, none, none,
        OrderStatus.pending⟩ (by decide) rfl (by decide)).1,
   (custom_amount_boundary.2.2.2 ⟨[⟨1, "Wash"⟩], [], [], [], 1, 1, 1⟩
      ⟨"Janet", "09998887777", "456 St", 1, "custom", 3, none, none,
        OrderStatus.pending⟩ (by decide) rfl (by decide)).2⟩

theorem customCount_crud_create (db : DB) (pc : PriceCreate) (cat : Nat) :
    customCount (crud_create_price db pc).2 cat =
      customCount db cat +
        (if pc.category_id == cat && lowerStr pc.type == "custom" then 1 else 0) := by
  unfold customCount crud_create_price
  by_cases hb : (pc.category_id == cat && lowerStr pc.type == "custom") = true
  · simp [List.filter_append, List.filter, hb]
  · simp [List.filter_append, List.filter, hb]

/-- C2 evidence: the POST /prices overlap check for non-custom types only
tests the midpoint of the incoming range against existing rows, so a
schema-valid request whose range `[8, 30]` genuinely overlaps an existing
same-type, same-category range `[1, 10]` (midpoint 19 lies in neither) is
accepted and inserted instead of being rejected with Conflict (400): the
pairwise non-overlap invariant is not enforced. -/
theorem create_price_overlap_accepted :
    validPriceCreate ⟨"Regular", some 8, 30, 200, 1⟩ = true ∧
    rangesOverlap 1 10 8 30 = true ∧
    (routerCreatePrice
        ⟨[⟨1, "Wash"⟩], [], [⟨1, "Regular", some 1, 10, 100, 1⟩], [], 1, 2, 1⟩
        ⟨"Regular", some 8, 30, 200, 1⟩).1 =
      Except.ok ⟨2, "Regular", some 8, 30, 200, 1⟩ ∧
    ((routerCreatePrice
        ⟨[⟨1, "Wash"⟩], [], [⟨1, "Regular", some 1, 10, 100, 1⟩], [], 1, 2, 1⟩
        ⟨"Regular", some 8, 30, 200, 1⟩).2).prices =
      [⟨1, "Regular", some 1, 10, 100, 1⟩, ⟨2, "Regular", some 8, 30, 200, 1⟩] := by
  have hmid : get_price_by_type_and_weight
      ⟨[⟨1, "Wash"⟩], [], [⟨1, "Regular", some 1, 10, 100, 1⟩], [], 1, 2, 1⟩
      1 "Regular" ((8 + 30) / 2) = none := by
    unfold get_price_by_type_and_weight
    simp [List.find?, typeWeightPred]
    norm_num
  refine ⟨by decide, by decide, ?_, ?_⟩ <;>
  · unfold routerCreatePrice
    simp only [hmid]
    norm_num [get_category, List.find?, crud_create_price]
    try decide

/-- C6: when the category exists and price resolution fails after client
reconciliation, the resolver's error propagates as-is and the store stays in
the post-reconciliation state: no order is added, and — when the contact
number was novel — the newly inserted client remains persisted with no
order, since the workflow performs no rollback. -/
theorem create_integrated_order_no_rollback (db : DB)
    (od : IntegratedOrderCreate) (e : String)
    (hc : (get_category db od.category_id).isSome)
    (hp : get_price_for_order
        (find_or_create_client db od.client_name od.client_contact od.client_address).2
        od.category_id od.type_name od.weight od.custom_amount = Except.error e) :
    create_integrated_order db od =
      (Except.error e,
        (find_or_create_client db od.client_name od.client_contact od.client_address).2) ∧
    ((find_or_create_client db od.client_name od.client_contact od.client_address).2).orders =
      db.orders ∧
    (db.clients.find? (fun x => x.contact_number == od.client_contact) = none →
      ((find_or_create_client db od.client_name od.client_contact od.client_address).2).clients =
        db.clients ++ [⟨db.nextClientId, od.client_name, od.client_contact, od.client_address⟩]) := by
  obtain ⟨cat, hcat⟩ := Option.isSome_iff_exists.mp hc
  refine ⟨?_, find_or_create_client_orders db _ _ _, ?_⟩
  · unfold create_integrated_order
    rw [hcat]
    simp only [hp]
  · intro hn
    unfold find_or_create_client create_client
    rw [hn]

theorem create_integrated_order_no_rollback_witness :
    (get_category ⟨[⟨1, "Wash"⟩], [], [], [], 1, 1, 1⟩ 1).isSome = true ∧
    get_price_for_order
        (find_or_create_client ⟨[⟨1, "Wash"⟩], [], [], [], 1, 1, 1⟩
          "Jane" "09171234567" "123 St").2 1 "Regular" 3 none =
      Except.error (noPriceMsg "Regular" 3 1) ∧
    ([] : List Client).find? (fun x => x.contact_number == "09171234567") = none ∧
    create_integrated_order ⟨[⟨1, "Wash"⟩], [], [], [], 1, 1, 1⟩
        ⟨"Jane", "09171234567", "123 St", 1, "Regular", 3, none, none,
          OrderStatus.pending⟩ =
      (Except.error (noPriceMsg "Regular" 3 1),
        (find_or_create_client ⟨[⟨1, "Wash"⟩], [], [], [], 1, 1, 1⟩
          "Jane" "09171234567" "123 St").2) ∧
    ((find_or_create_client ⟨[⟨1, "Wash"⟩], [], [], [], 1, 1, 1⟩
        "Jane" "09171234567" "123 St").2).orders = [] ∧
    ((find_or_create_client ⟨[⟨1, "Wash"⟩], [], [], [], 1, 1, 1⟩
        "Jane" "09171234567" "123 St").2).clients =
      [] ++ [⟨1, "Jane", "09171234567", "123 St"⟩] :=
  ⟨by decide, by decide, by decide,
   (create_integrated_order_no_rollback ⟨[⟨1, "Wash"⟩], [], [], [], 1, 1, 1⟩
      ⟨"Jane", "09171234567", "123 St", 1, "Regular", 3, none, none,
        OrderStatus.pending⟩ (noPriceMsg "Regular" 3 1) (by decide) (by decide)).1,
   (create_integrated_order_no_rollback ⟨[⟨1, "Wash"⟩], [], [], [], 1, 1, 1⟩
      ⟨"Jane", "09171234567", "123 St", 1, "Regular", 3, none, none,
        OrderStatus.pending⟩ (noPriceMsg "Regular" 3 1) (by decide) (by decide)).2.1,
   (create_integrated_order_no_rollback ⟨[⟨1, "Wash"⟩], [], [], [], 1, 1, 1⟩
      ⟨"Jane", "09171234567", "123 St", 1, "Regular", 3, none, none,
        OrderStatus.pending⟩ (noPriceMsg "Regular" 3 1) (by decide) (by decide)).2.2
      (by decide)⟩

/-- C7: a POST /prices request whose type is case-insensitively "custom",
against an existing category that already holds a price whose type is
case-insensitively "custom", fails with Conflict (400, "Custom price already
exists for this category") and inserts nothing; moreover price creation
preserves the invariant that each category holds at most one such custom
rule. -/
theorem create_price_duplicate_custom :
    (∀ (db : DB) (pc : PriceCreate) (q : Price),
        q ∈ db.prices → q.category_id = pc.category_id →
        lowerStr q.type = "custom" → lowerStr pc.type = "custom" →
        (get_category db pc.category_id).isSome →
        routerCreatePrice db pc =
          (Except.error ⟨400, "Custom price already exists for this category"⟩, db)) ∧
    (∀ (db : DB) (pc : PriceCreate) (cat : Nat),
        customCount db cat ≤ 1 → customCount (routerCreatePrice db pc).2 cat ≤ 1) := by
  constructor
  · intro db pc q hq hqc hql hpl hcat
    obtain ⟨c, hc⟩ := Option.isSome_iff_exists.mp hcat
    have hpb : (lowerStr pc.type == "custom") = true := by simp [hpl]
    have hsome : (db.prices.find?
        (fun p => p.category_id == pc.category_id && ilike p.type "custom")).isSome := by
      rw [List.find?_isSome]
      exact ⟨q, hq, by simp [hqc, ilike_custom_of_lower hql]⟩
    obtain ⟨r, hr⟩ := Option.isSome_iff_exists.mp hsome
    unfold routerCreatePrice
    rw [hc, hpb, hr]
    simp
  · intro db pc cat h
    unfold routerCreatePrice
    cases hc : get_category db pc.category_id with
    | none => exact h
    | some c =>
      by_cases hcu : (lowerStr pc.type == "custom") = true
      · rw [hcu]
        simp only [if_true]
        cases hf : db.prices.find?
            (fun p => p.category_id == pc.category_id && ilike p.type "custom") with
        | some r => exact h
        | none =>
          simp only [customCount_crud_create]
          by_cases hcc : (pc.category_id == cat) = true
          · have hcat0 : customCount db cat = 0 := by
              unfold customCount
              rw [List.length_eq_zero]
              rw [List.filter_eq_nil_iff]
              intro p hp hmem
              have hfn := List.find?_eq_none.mp hf p hp
              apply hfn
              have h1 : (p.category_id == cat) = true := by
                revert hmem
                cases p.category_id == cat <;> simp
              have h2 : (lowerStr p.type == "custom") = true := by
                revert hmem
                cases lowerStr p.type == "custom" <;> simp
              have h3 : p.category_id = pc.category_id := by
                have hp1 : p.category_id = cat := eq_of_beq h1
                have hp2 : pc.category_id = cat := eq_of_beq hcc
                omega
              simp [h3, ilike_custom_of_lower (eq_of_beq h2)]
            rw [hcat0]
            simp [hcc, hcu]
          · have hcc2 : (pc.category_id == cat) = false := by
              cases hb2 : pc.category_id == cat
              · rfl
              · exact absurd hb2 hcc
            simp [hcc2, h]
      · have hcu2 : (lowerStr pc.type == "custom") = false := by
          cases hb2 : lowerStr pc.type == "custom"
          · rfl
          · exact absurd hb2 hcu
        rw [hcu2]
        simp only [Bool.false_eq_true, if_false]
        cases hw : pc.weight_min with
        | none => simp only [hw]; exact h
        | some wmin =>
          simp only [hw]
          cases hf : get_price_by_type_and_weight db pc.category_id pc.type
              ((wmin + pc.weight_max) / 2) with
          | some r => simp only [hf]; exact h
          | none =>
            simp only [hf, customCount_crud_create]
            simp [hcu2, h]

theorem create_price_duplicate_custom_witness :
    ((⟨1, "custom", none, 5, 50, 1⟩ : Price) ∈
        [(⟨1, "custom", none, 5, 50, 1⟩ : Price)] ∧
     (1 : Nat) = 1 ∧
     lowerStr "custom" = "custom" ∧
     lowerStr "Custom" = "custom" ∧
     (get_category ⟨[⟨1, "Wash"⟩], [], [⟨1, "custom", none, 5, 50, 1⟩], [], 1, 2, 1⟩ 1).isSome = true ∧
     routerCreatePrice ⟨[⟨1, "Wash"⟩], [], [⟨1, "custom", none, 5, 50, 1⟩], [], 1, 2, 1⟩
        ⟨"Custom", none, 7, 60, 1⟩ =
      (Except.error ⟨400, "Custom price already exists for this category"⟩,
        ⟨[⟨1, "Wash"⟩], [], [⟨1, "custom", none, 5, 50, 1⟩], [], 1, 2, 1⟩)) ∧
    (customCount ⟨[⟨1, "Wash"⟩], [], [⟨1, "custom", none, 5, 50, 1⟩], [], 1, 2, 1⟩ 1 ≤ 1 ∧
     customCount (routerCreatePrice
        ⟨[⟨1, "Wash"⟩], [], [⟨1, "custom", none, 5, 50, 1⟩], [], 1, 2, 1⟩
        ⟨"Custom", none, 7, 60, 1⟩).2 1 ≤ 1) :=
  ⟨⟨by decide, rfl, by decide, by decide, by decide,
    create_price_duplicate_custom.1
      ⟨[⟨1, "Wash"⟩], [], [⟨1, "custom", none, 5, 50, 1⟩], [], 1, 2, 1⟩
      ⟨"Custom", none, 7, 60, 1⟩ ⟨1, "custom", none, 5, 50, 1⟩
      (by decide) rfl (by decide) (by decide) (by decide)⟩,
   ⟨by decide,
    create_price_duplicate_custom.2
      ⟨[⟨1, "Wash"⟩], [], [⟨1, "custom", none, 5, 50, 1⟩], [], 1, 2, 1⟩
      ⟨"Custom", none, 7, 60, 1⟩ 1 (by decide)⟩⟩

/-- C10: the orders created through `create_order` and
`create_integrated_order` always carry a status drawn from the request
schemas' enum {pending, in_progress, completed, cancelled}, which both
schemas default to "pending" when the caller omits it, so the storage-level
default "unpaid" of the Order model is unreachable through these two
creation operations. -/
theorem order_status_vocabulary :
    (∀ s : OrderStatus, (s.str == modelDefaultStatus) = false ∧
        (["pending", "in_progress", "completed", "cancelled"].contains s.str) = true) ∧
    (({ client_id := 1, category_id := 1 } : OrderCreate).status = OrderStatus.pending ∧
     ({ client_name := "a", client_contact := "09171234567", client_address := "b",
        category_id := 1, type_name := "t", weight := 1 } :
        IntegratedOrderCreate).status = OrderStatus.pending) ∧
    (∀ (db : DB) (oc : OrderCreate),
        ((create_order db oc).1).status = oc.status.str ∧
        ((create_order db oc).2).orders = db.orders ++ [(create_order db oc).1]) ∧
    (∀ (db : DB) (od : IntegratedOrderCreate),
        ((((create_integrated_order db od).2).orders).drop db.orders.length).all
          (fun o => o.status == od.status.str) = true) := by
  refine ⟨?_, ⟨rfl, rfl⟩, ?_, ?_⟩
  · intro s
    cases s <;> exact ⟨rfl, rfl⟩
  · intro db oc
    exact ⟨rfl, rfl⟩
  · intro db od
    unfold create_integrated_order
    cases hc : get_category db od.category_id with
    | none => simp [List.drop_length]
    | some c =>
      cases hp : get_price_for_order
          (find_or_create_client db od.client_name od.client_contact
            od.client_address).2 od.category_id od.type_name od.weight
          od.custom_amount with
      | error e =>
        simp [hp, find_or_create_client_orders, List.drop_length]
      | ok res =>
        simp [hp, create_order, find_or_create_client_orders, List.drop_left,
          OrderStatus.str]

end Washtag
